import Mathlib

/-!
Verification of the tools-asuite repository against its specification.

Part A embeds the test-result aggregation engine (`result_reporter`): the
statuses, per-group statistics, the global statistics, the failed-test list
and the banner-printing behaviour observable through the unit tests.
Part B embeds the JDK table XML patching logic of `aidegen/sdk/jdk_table.py`.
Part C embeds the exit-code and re-raise logic of `main` in
`aidegen/aidegen_main.py`.
-/

set_option maxHeartbeats 1000000

/-! ### Association lists used for the runner and group mappings -/

/-- Lookup in an association list, first binding wins (mirrors dict lookup). -/
def alookup {κ β : Type} [DecidableEq κ] (k : κ) : List (κ × β) → Option β
  | [] => none
  | p :: rest => if p.1 = k then some p.2 else alookup k rest

/-- Insert-or-overwrite in an association list, preserving insertion order
(mirrors Python dict assignment). -/
def aupdate {κ β : Type} [DecidableEq κ] (k : κ) (v : β) : List (κ × β) → List (κ × β)
  | [] => [(k, v)]
  | p :: rest => if p.1 = k then (k, v) :: rest else p :: aupdate k v rest

/-! ### Part A: the result aggregator (result_reporter) -/

/-- Modelled from the spec: the five outcome statuses of a TestOutcome
(`PASSED, FAILED, IGNORED, ASSUMPTION_FAILED, ERROR`); the implementation
module `result_reporter.py` is not under src/, only its unit tests are. -/
inductive Status where
  | passed
  | failed
  | ignored
  | assumption_failed
  | error
deriving DecidableEq

/-- Modelled from the spec: a TestOutcome input record (the `TestResult`
namedtuple used by the unit tests); display-only fields are carried as data. -/
structure TestResult where
  runner_name : String
  group_name : Option String
  test_name : Option String
  status : Status
  details : Option String := none
  test_count : Option Nat := none
  test_time : String := ""
  runner_total : Option Nat := none
  group_total : Option Nat := none
  additional_info : List (String × String) := []
  test_run_name : String := ""
deriving DecidableEq

/-- Modelled from the spec: a GroupStat accumulator (`RunStat` in the unit
tests): four counters and the one-way `run_errors` flag. -/
structure RunStat where
  passed : Nat := 0
  failed : Nat := 0
  ignored : Nat := 0
  assumption_failed : Nat := 0
  run_errors : Bool := false
deriving DecidableEq

/-- Modelled from the spec: `total` is derived as the sum of the four status
counters. -/
def RunStat.total (s : RunStat) : Nat :=
  s.passed + s.failed + s.ignored + s.assumption_failed

/-- Modelled from the spec: a runner entry is either the "unsupported"
sentinel or a mapping from (optional) group name to its GroupStat. -/
inductive RunnerEntry where
  | unsupported
  | groups (m : List (Option String × RunStat))
deriving DecidableEq

/-- Modelled from the spec: the aggregator state (`ResultReporter`): the
runner mapping, global statistics, the ordered failed-test list, and a log of
the group-title banners actually emitted to the progress stream. -/
structure ResultReporter where
  runners : List (String × RunnerEntry) := []
  run_stats : RunStat := {}
  failed_tests : List (Option String) := []
  banners : List (String × Option String) := []
deriving DecidableEq

/-- Modelled from the spec: the status → counters/flag update rule applied
identically at group and global scope. -/
def RunStat.applyStatus (g : RunStat) (st : Status) : RunStat :=
  match st with
  | Status.passed => { g with passed := g.passed + 1 }
  | Status.failed => { g with failed := g.failed + 1 }
  | Status.ignored => { g with ignored := g.ignored + 1 }
  | Status.assumption_failed => { g with assumption_failed := g.assumption_failed + 1 }
  | Status.error => { g with run_errors := true }

/-- Modelled from the spec: `_update_stats(test, group)` — updates the global
statistics and failed-test list of the reporter and returns the updated group
statistics. -/
def ResultReporter.updateStats (r : ResultReporter) (t : TestResult) (g : RunStat) :
    ResultReporter × RunStat :=
  ({ r with
      run_stats := r.run_stats.applyStatus t.status,
      failed_tests :=
        if t.status = Status.failed then r.failed_tests ++ [t.test_name]
        else r.failed_tests },
   g.applyStatus t.status)

/-- Modelled from the spec: the group mapping of a runner; the "unsupported"
sentinel and an absent runner both present an empty mapping to the caller. -/
def ResultReporter.runnerGroups (r : ResultReporter) (rn : String) :
    List (Option String × RunStat) :=
  match alookup rn r.runners with
  | some (RunnerEntry.groups m) => m
  | _ => []

/-- Modelled from the spec: the GroupStat currently recorded for a
(runner, group) pair, defaulting to a fresh accumulator. -/
def ResultReporter.groupStat (r : ResultReporter) (rn : String) (gn : Option String) : RunStat :=
  (alookup gn (r.runnerGroups rn)).getD {}

/-- Modelled from the spec: `process_test_result` — resolve or create the
runner entry and group entry, emit a group-title banner on first sight of the
pair (suppressed when no explicit group name is present), then apply the
update rule. -/
def ResultReporter.process_test_result (r : ResultReporter) (t : TestResult) : ResultReporter :=
  let groups := r.runnerGroups t.runner_name
  let existing := alookup t.group_name groups
  let newBanners :=
    if existing.isNone && t.group_name.isSome then
      r.banners ++ [(t.runner_name, t.group_name)]
    else r.banners
  let res := r.updateStats t (existing.getD {})
  { res.1 with
      runners :=
        aupdate t.runner_name (RunnerEntry.groups (aupdate t.group_name res.2 groups)) r.runners,
      banners := newBanners }

/-- Modelled from the spec: `register_unsupported_runner` records the
sentinel for the runner, overwriting any existing entry. -/
def ResultReporter.register_unsupported_runner (r : ResultReporter) (name : String) :
    ResultReporter :=
  { r with runners := aupdate name RunnerEntry.unsupported r.runners }

/-- Modelled from the spec: the exit status computed by `print_summary`:
0 when there are no failures and no run errors, a non-zero value otherwise. -/
def ResultReporter.print_summary (r : ResultReporter) : Nat :=
  if r.run_stats.failed = 0 ∧ r.run_stats.run_errors = false then 0 else 1

/-- Process a whole sequence of outcomes in arrival order. -/
def ResultReporter.processAll (r : ResultReporter) (ts : List TestResult) : ResultReporter :=
  ts.foldl ResultReporter.process_test_result r

/-- A freshly constructed reporter. -/
def initReporter : ResultReporter := {}

/-! ### Part B: the JDK table XML patch (aidegen/sdk/jdk_table.py) -/

/-- An XML element as manipulated by `xml.etree.ElementTree`: a tag, the
attribute mapping, the text before the first child, the tail after the
closing tag, and the child elements. -/
inductive Element where
  | mk (tag : String) (attrib : List (String × String)) (text : Option String)
      (tail : Option String) (children : List Element)

/-- The tag of an element. -/
def Element.tag : Element → String
  | Element.mk t _ _ _ _ => t

/-- The attribute list of an element. -/
def Element.attrib : Element → List (String × String)
  | Element.mk _ a _ _ _ => a

/-- The text of an element. -/
def Element.text : Element → Option String
  | Element.mk _ _ tx _ _ => tx

/-- The tail of an element. -/
def Element.tail : Element → Option String
  | Element.mk _ _ _ tl _ => tl

/-- The children of an element. -/
def Element.children : Element → List Element
  | Element.mk _ _ _ _ cs => cs

/-- `ElementTree.Element.find`: the first direct child with the given tag. -/
def Element.find (e : Element) (tag : String) : Option Element :=
  e.children.find? (fun c => c.tag == tag)

/-- `ElementTree.Element.get`: look up an attribute value. -/
def Element.get (e : Element) (key : String) : Option String :=
  (e.attrib.find? (fun p => p.1 == key)).map (fun p => p.2)

/-- Replace the tail of an element (models `node.tail = ...`). -/
def Element.setTail (e : Element) (t : Option String) : Element :=
  match e with
  | Element.mk tg a tx _ cs => Element.mk tg a tx t cs

/-- Replace the text of an element (models `component.text = ...`). -/
def Element.setText (e : Element) (t : Option String) : Element :=
  match e with
  | Element.mk tg a _ tl cs => Element.mk tg a t tl cs

/-- Replace the children of an element. -/
def Element.setChildren (e : Element) (cs : List Element) : Element :=
  match e with
  | Element.mk tg a tx tl _ => Element.mk tg a tx tl cs

/-- All elements of the given tag in the subtrees of a list of elements, in
document order (the list analogue of `ElementTree`'s `iter`). -/
def iterList (tag : String) : List Element → List Element
  | [] => []
  | Element.mk t a tx tl cs :: rest =>
      (if t = tag then [Element.mk t a tx tl cs] else []) ++
        iterList tag cs ++ iterList tag rest

/-- `ElementTree.iter(tag)`: all elements with the given tag in the tree,
the root included. -/
def Element.iter (e : Element) (tag : String) : List Element :=
  iterList tag [e]

/-- Apply a function to the first element of a list satisfying a predicate
(models mutating the object returned by `find` in place). -/
def updateFirst (p : Element → Bool) (f : Element → Element) : List Element → List Element
  | [] => []
  | c :: rest => if p c then f c :: rest else c :: updateFirst p f rest

/-- Set the tail of the last element of a list (models `component[-1].tail = ...`). -/
def setLastTail (t : Option String) : List Element → List Element
  | [] => []
  | [c] => [c.setTail t]
  | c :: rest => c :: setLastTail t rest

/-- The `_LAST_TAG_TAIL` constant of `JDKTableXML`. -/
def LAST_TAG_TAIL : String := "\n    "

/-- The `_NEW_TAG_TAIL` constant of `JDKTableXML`. -/
def NEW_TAG_TAIL : String := "\n  "

/-- The inner check of `_check_jdk18_in_xml` on one `<jdk>` element: its
`<type>` child has value `JavaSDK` and its `<name>` child has value `JDK18`;
elements lacking either child are skipped. -/
def jdkEntryMatch (jdk : Element) : Bool :=
  match jdk.find "name", jdk.find "type" with
  | some nm, some ty =>
      (ty.get "value" == some "JavaSDK") && (nm.get "value" == some "JDK18")
  | _, _ => false

/-- `_check_jdk18_in_xml`: whether some `<jdk>` element anywhere in the tree
is the JDK18 / JavaSDK entry. -/
def check_jdk18_in_xml (root : Element) : Bool :=
  (root.iter "jdk").any jdkEntryMatch

/-- `_check_structure`: the root tag must be `application`, a `component`
child must exist, and its `name` attribute must be `ProjectJdkTable`. -/
def check_structure (xml : Option Element) : Bool :=
  match xml with
  | none => false
  | some root =>
    if root.tag != "application" then false
    else
      match root.find "component" with
      | none => false
      | some comp =>
        if comp.tag != "component" then false
        else comp.get "name" == some "ProjectJdkTable"

/-- The mutation `_append_config` applies to the `component` element: fix
the tail of the previous last child (or the component's text when it has no
children) and append the new node. -/
def appendToComponent (nodeWithTail : Element) (comp : Element) : Element :=
  let comp' :=
    if comp.children.length > 0 then
      comp.setChildren (setLastTail (some LAST_TAG_TAIL) comp.children)
    else comp.setText (some LAST_TAG_TAIL)
  comp'.setChildren (comp'.children ++ [nodeWithTail])

/-- `_append_config`: set the new node's tail and append it to the first
`component` child of the root. -/
def append_config (root : Element) (node : Element) : Element :=
  root.setChildren
    (updateFirst (fun c => c.tag == "component")
      (appendToComponent (node.setTail (some NEW_TAG_TAIL)))
      root.children)

/-- The state of a `JDKTableXML` object after `__init__`: the parsed XML
document (`none` models a failed parse), the parsed form of the `<jdk>`
configuration string `_jdk_content.format(JDKpath=...)`, the
`_modify_config` flag and `_android_sdk_version`. -/
structure JDKTableXML where
  xml : Option Element
  jdk_node : Element
  modify_config : Bool := false
  android_sdk_version : Option String := none

/-- `_generate_jdk_config_string`: append the JDK configuration and mark the
document modified unless the JDK18 entry already exists. -/
def generate_jdk_config_string (s : JDKTableXML) : JDKTableXML :=
  match s.xml with
  | none => s
  | some root =>
    if check_jdk18_in_xml root then s
    else { s with xml := some (append_config root s.jdk_node), modify_config := true }

/-- The observable outcome of `config_jdk_table_xml`: the returned boolean,
the resulting object state, and whether the file was rewritten. -/
structure ConfigResult where
  ret : Bool
  state : JDKTableXML
  wrote : Bool

/-- `config_jdk_table_xml`: bail out when the structure check fails,
otherwise ensure the JDK entry exists (`_generate_sdk_config_string` is a
no-op in this version), write the file when modified, and return whether an
Android SDK version was found. -/
def config_jdk_table_xml (s : JDKTableXML) : ConfigResult :=
  if !check_structure s.xml then { ret := false, state := s, wrote := false }
  else
    let s1 := generate_jdk_config_string s
    { ret := s1.android_sdk_version.isSome, state := s1, wrote := s1.modify_config }

/-- A well-formed JDK18 configuration node: a `<jdk>` element that the
JDK18 presence check accepts. -/
def isJdk18Entry (e : Element) : Bool :=
  (e.tag == "jdk") && jdkEntryMatch e

/-! ### Part C: exit-code handling of aidegen_main.main -/

/-- Modelled from the spec: `constant.EXIT_CODE_NORMAL` (the constants
module is not under src/; only distinctness of the three codes matters). -/
def EXIT_CODE_NORMAL : Int := 0

/-- Modelled from the spec: `constant.EXIT_CODE_AIDEGEN_EXCEPTION`. -/
def EXIT_CODE_AIDEGEN_EXCEPTION : Int := 1

/-- Modelled from the spec: `constant.EXIT_CODE_EXCEPTION`. -/
def EXIT_CODE_EXCEPTION : Int := 2

/-- The kinds of exception the body of `main` can raise, as distinguished by
the handler: a `SystemExit` carrying its code, an `errors.AIDEgenError`, or
any other exception. -/
inductive MainException where
  | systemExit (code : Option Int)
  | aidegenError
  | otherError
deriving DecidableEq

/-- The observable behaviour of one run of `main`: the final exit code, and
whether the exception was re-raised, whether error metrics with a traceback
were sent, whether the normal-path metrics of the `finally` block were sent,
and whether a traceback was printed. -/
structure MainOutcome where
  exit_code : Int
  reraised : Bool
  error_metrics_sent : Bool
  normal_metrics_sent : Bool
  traceback_printed : Bool
deriving DecidableEq

/-- The `try/except/finally` of `main`: on an exception the exit code is set
to `EXIT_CODE_EXCEPTION`, upgraded to `EXIT_CODE_AIDEGEN_EXCEPTION` for an
`AIDEgenError`, reset to `EXIT_CODE_NORMAL` for a `SystemExit` with code 0;
when the exit code is not normal the error metrics are sent, the traceback
printed and the exception re-raised; the `finally` block sends the
normal-path metrics exactly when the exit code is normal. -/
def main_run (body : Option MainException) : MainOutcome :=
  match body with
  | none =>
    { exit_code := EXIT_CODE_NORMAL, reraised := false, error_metrics_sent := false,
      normal_metrics_sent := true, traceback_printed := false }
  | some err =>
    let ec0 := EXIT_CODE_EXCEPTION
    let ec1 := if err = MainException.aidegenError then EXIT_CODE_AIDEGEN_EXCEPTION else ec0
    let ec2 :=
      match err with
      | MainException.systemExit (some c) => if c = 0 then EXIT_CODE_NORMAL else ec1
      | _ => ec1
    if ec2 ≠ EXIT_CODE_NORMAL then
      { exit_code := ec2, reraised := true, error_metrics_sent := true,
        normal_metrics_sent := false, traceback_printed := true }
    else
      { exit_code := ec2, reraised := false, error_metrics_sent := false,
        normal_metrics_sent := true, traceback_printed := false }

/-! ### Sample inputs for witnesses -/

/-- A passing outcome for runner R1, group M1. -/
def passedR1M1 : TestResult :=
  { runner_name := "R1", group_name := some "M1", test_name := some "t1",
    status := Status.passed }

/-- A failing outcome for runner R1, group M1. -/
def failedR1M1 : TestResult :=
  { runner_name := "R1", group_name := some "M1", test_name := some "t2",
    status := Status.failed }

/-- An invocation-level error outcome for runner R1: no group, no test. -/
def errorR1 : TestResult :=
  { runner_name := "R1", group_name := none, test_name := none,
    status := Status.error }

/-- A passing outcome for runner R2, group M1, as in spec Scenario E. -/
def passedR2M1 : TestResult :=
  { runner_name := "R2", group_name := some "M1", test_name := some "t1",
    status := Status.passed }

/-- A sample JDK18 configuration node. -/
def jdkNode18 : Element :=
  Element.mk "jdk" [("version", "2")] none none
    [Element.mk "name" [("value", "JDK18")] none none [],
     Element.mk "type" [("value", "JavaSDK")] none none []]

/-- A sample well-structured document without a JDK18 entry. -/
def emptyTableDoc : Element :=
  Element.mk "application" [] none none
    [Element.mk "component" [("name", "ProjectJdkTable")] none none []]

/-- A sample document whose root tag is not `application`. -/
def badRootDoc : Element :=
  Element.mk "project" [] none none
    [Element.mk "component" [("name", "ProjectJdkTable")] none none []]

/-! ### Association list lemmas -/

theorem alookup_aupdate_self {κ β : Type} [DecidableEq κ] (k : κ) (v : β) (l : List (κ × β)) :
    alookup k (aupdate k v l) = some v := by
  induction l with
  | nil => simp [alookup, aupdate]
  | cons p rest ih =>
    by_cases h : p.1 = k
    · simp [aupdate, h, alookup]
    · simp [aupdate, h, alookup, ih]

theorem alookup_aupdate_ne {κ β : Type} [DecidableEq κ] (k k' : κ) (v : β)
    (l : List (κ × β)) (h : k' ≠ k) :
    alookup k' (aupdate k v l) = alookup k' l := by
  induction l with
  | nil => simp [alookup, aupdate, Ne.symm h]
  | cons p rest ih =>
    by_cases hp : p.1 = k
    · subst hp
      simp [aupdate, alookup, Ne.symm h]
    · simp [aupdate, hp, alookup, ih]

theorem alookup_aupdate_isSome {κ β : Type} [DecidableEq κ] (k k' : κ) (v : β)
    (l : List (κ × β)) :
    (alookup k' (aupdate k v l)).isSome = true ↔
      k' = k ∨ (alookup k' l).isSome = true := by
  by_cases h : k' = k
  · subst h
    simp [alookup_aupdate_self]
  · simp [alookup_aupdate_ne k k' v l h, h]

/-! ### Step lemmas for the aggregator -/

theorem run_stats_process (r : ResultReporter) (t : TestResult) :
    (r.process_test_result t).run_stats = r.run_stats.applyStatus t.status := rfl

theorem failed_tests_process (r : ResultReporter) (t : TestResult) :
    (r.process_test_result t).failed_tests =
      if t.status = Status.failed then r.failed_tests ++ [t.test_name]
      else r.failed_tests := rfl

theorem runnerGroups_process_self (r : ResultReporter) (t : TestResult) :
    (r.process_test_result t).runnerGroups t.runner_name =
      aupdate t.group_name
        ((r.groupStat t.runner_name t.group_name).applyStatus t.status)
        (r.runnerGroups t.runner_name) := by
  simp [ResultReporter.process_test_result, ResultReporter.runnerGroups,
    ResultReporter.groupStat, ResultReporter.updateStats, alookup_aupdate_self]

theorem runnerGroups_process_other (r : ResultReporter) (t : TestResult) (rn : String)
    (h : rn ≠ t.runner_name) :
    (r.process_test_result t).runnerGroups rn = r.runnerGroups rn := by
  simp [ResultReporter.process_test_result, ResultReporter.runnerGroups,
    alookup_aupdate_ne _ _ _ _ h]

theorem groupStat_process_self (r : ResultReporter) (t : TestResult) :
    (r.process_test_result t).groupStat t.runner_name t.group_name =
      (r.groupStat t.runner_name t.group_name).applyStatus t.status := by
  simp [ResultReporter.groupStat, runnerGroups_process_self, alookup_aupdate_self]

theorem groupStat_process_other (r : ResultReporter) (t : TestResult) (rn : String)
    (gn : Option String) (h : ¬(rn = t.runner_name ∧ gn = t.group_name)) :
    (r.process_test_result t).groupStat rn gn = r.groupStat rn gn := by
  by_cases hr : rn = t.runner_name
  · subst hr
    have hg : gn ≠ t.group_name := fun hh => h ⟨rfl, hh⟩
    simp [ResultReporter.groupStat, runnerGroups_process_self,
      alookup_aupdate_ne _ _ _ _ hg]
  · simp [ResultReporter.groupStat, runnerGroups_process_other r t rn hr]

/-! ### Counter characterization lemmas -/

theorem applyStatus_failed (g : RunStat) (st : Status) :
    (g.applyStatus st).failed = g.failed + (if st = Status.failed then 1 else 0) := by
  cases st <;> simp [RunStat.applyStatus]

theorem applyStatus_passed (g : RunStat) (st : Status) :
    (g.applyStatus st).passed = g.passed + (if st = Status.passed then 1 else 0) := by
  cases st <;> simp [RunStat.applyStatus]

theorem applyStatus_ignored (g : RunStat) (st : Status) :
    (g.applyStatus st).ignored = g.ignored + (if st = Status.ignored then 1 else 0) := by
  cases st <;> simp [RunStat.applyStatus]

theorem applyStatus_assumption_failed (g : RunStat) (st : Status) :
    (g.applyStatus st).assumption_failed =
      g.assumption_failed + (if st = Status.assumption_failed then 1 else 0) := by
  cases st <;> simp [RunStat.applyStatus]

theorem applyStatus_run_errors (g : RunStat) (st : Status) :
    (g.applyStatus st).run_errors = (g.run_errors || (st == Status.error)) := by
  cases st <;> simp [RunStat.applyStatus]

theorem run_stats_processAll (r : ResultReporter) (ts : List TestResult) :
    (r.processAll ts).run_stats =
      ts.foldl (fun s t => s.applyStatus t.status) r.run_stats := by
  induction ts generalizing r with
  | nil => rfl
  | cons t rest ih =>
    simp only [ResultReporter.processAll, List.foldl_cons]
    rw [← ResultReporter.processAll, ih, run_stats_process]

theorem foldl_applyStatus_failed (ts : List TestResult) (s : RunStat) :
    (ts.foldl (fun s t => s.applyStatus t.status) s).failed =
      s.failed + ts.countP (fun t => t.status == Status.failed) := by
  induction ts generalizing s with
  | nil => simp
  | cons t rest ih =>
    rw [List.foldl_cons, ih, applyStatus_failed]
    by_cases h : t.status = Status.failed
    · simp [List.countP_cons, h]
      omega
    · simp [List.countP_cons, h]

theorem foldl_applyStatus_run_errors (ts : List TestResult) (s : RunStat) :
    (ts.foldl (fun s t => s.applyStatus t.status) s).run_errors =
      (s.run_errors || ts.any (fun t => t.status == Status.error)) := by
  induction ts generalizing s with
  | nil => simp
  | cons t rest ih =>
    rw [List.foldl_cons, ih, applyStatus_run_errors]
    simp [Bool.or_assoc]

/-- C1: print_summary returns exit status 0 if and only if the global failed
counter is 0 and the global run_errors flag is false, for every sequence of
processed outcomes; IGNORED and ASSUMPTION_FAILED counts never affect the
returned status, and any run with a FAILED outcome or a recorded run-level
ERROR yields a non-zero return. -/
theorem print_summary_zero_iff (ts : List TestResult) :
    ((initReporter.processAll ts).print_summary = 0 ↔
      (initReporter.processAll ts).run_stats.failed = 0 ∧
        (initReporter.processAll ts).run_stats.run_errors = false)
    ∧ ((initReporter.processAll ts).print_summary = 0 ↔
      ∀ t ∈ ts, t.status ≠ Status.failed ∧ t.status ≠ Status.error) := by
  have hbase :
      (initReporter.processAll ts).print_summary = 0 ↔
        (initReporter.processAll ts).run_stats.failed = 0 ∧
          (initReporter.processAll ts).run_stats.run_errors = false := by
    by_cases h : ((initReporter.processAll ts).run_stats.failed = 0 ∧
        (initReporter.processAll ts).run_stats.run_errors = false)
    · simp [ResultReporter.print_summary, h]
    · simp [ResultReporter.print_summary, h]
  refine ⟨hbase, hbase.trans ?_⟩
  rw [run_stats_processAll, foldl_applyStatus_failed, foldl_applyStatus_run_errors]
  show 0 + List.countP _ ts = 0 ∧ (false || List.any ts _) = false ↔ _
  rw [Nat.zero_add, Bool.false_or, List.countP_eq_zero]
  constructor
  · rintro ⟨h1, h2⟩ t ht
    refine ⟨fun hf => ?_, fun he => ?_⟩
    · have hb : (t.status == Status.failed) = true := by rw [hf]; rfl
      exact absurd hb (h1 t ht)
    · have hb : (t.status == Status.error) = true := by rw [he]; rfl
      have hany : ts.any (fun t => t.status == Status.error) = true :=
        List.any_eq_true.mpr ⟨t, ht, hb⟩
      rw [h2] at hany
      exact Bool.false_ne_true hany
  · intro h
    refine ⟨fun t ht => by simp [(h t ht).1], ?_⟩
    by_contra hne
    have : List.any ts (fun t => t.status == Status.error) = true := by
      cases hh : List.any ts (fun t => t.status == Status.error)
      · exact absurd hh hne
      · rfl
    obtain ⟨t, ht, hs⟩ := List.any_eq_true.mp this
    exact (h t ht).2 (by simpa using hs)

/-- C2: for every GroupStat the derived total equals
passed + failed + ignored + assumption_failed, and after processing N PASSED
outcomes into a fresh group the group shows passed = N and total = N. -/
theorem group_total_invariant :
    (∀ g : RunStat, g.total = g.passed + g.failed + g.ignored + g.assumption_failed)
    ∧ ∀ ts : List TestResult, (∀ t ∈ ts, t.status = Status.passed) →
        ((ts.foldl (fun (g : RunStat) t => g.applyStatus t.status) {}).passed = ts.length ∧
          (ts.foldl (fun (g : RunStat) t => g.applyStatus t.status) {}).total = ts.length) := by
  have hfold : ∀ (ts : List TestResult), (∀ t ∈ ts, t.status = Status.passed) →
      ∀ g : RunStat, ts.foldl (fun (g : RunStat) t => g.applyStatus t.status) g =
        { g with passed := g.passed + ts.length } := by
    intro ts h
    induction ts with
    | nil => intro g; simp
    | cons t rest ih =>
      intro g
      have ht : t.status = Status.passed := h t (List.mem_cons_self t rest)
      rw [List.foldl_cons,
        ih (fun x hx => h x (List.mem_cons_of_mem _ hx))]
      rcases g with ⟨p, f, i, a, e⟩
      simp [RunStat.applyStatus, ht]
      omega
  refine ⟨fun g => rfl, fun ts h => ?_⟩
  rw [hfold ts h]
  simp [RunStat.total]

/-- Witness for C2 at three concrete PASSED outcomes. -/
theorem group_total_invariant_witness :
    (([passedR1M1, passedR1M1, passedR1M1].foldl
        (fun (g : RunStat) t => g.applyStatus t.status) {}).passed = 3 ∧
      ([passedR1M1, passedR1M1, passedR1M1].foldl
        (fun (g : RunStat) t => g.applyStatus t.status) {}).total = 3) :=
  group_total_invariant.2 [passedR1M1, passedR1M1, passedR1M1] (by decide)

/-- C3: every FAILED outcome increments the group and global failed counters
by exactly 1 and appends exactly its test_name to the global failed_tests
list, preserving arrival order and duplicates; no other status appends. -/
theorem failed_outcome_effects (r : ResultReporter) (t : TestResult) :
    (t.status = Status.failed →
      ((r.process_test_result t).run_stats.failed = r.run_stats.failed + 1 ∧
        ((r.process_test_result t).groupStat t.runner_name t.group_name).failed =
          (r.groupStat t.runner_name t.group_name).failed + 1 ∧
        (r.process_test_result t).failed_tests = r.failed_tests ++ [t.test_name]))
    ∧ (t.status ≠ Status.failed →
        (r.process_test_result t).failed_tests = r.failed_tests) := by
  constructor
  · intro h
    refine ⟨?_, ?_, ?_⟩
    · rw [run_stats_process, applyStatus_failed, h]
      simp
    · rw [groupStat_process_self, applyStatus_failed, h]
      simp
    · rw [failed_tests_process]
      simp [h]
  · intro h
    rw [failed_tests_process]
    simp [h]

/-- Witness for C3 at a concrete FAILED outcome processed from the initial
reporter. -/
theorem failed_outcome_effects_witness :
    ((initReporter.process_test_result failedR1M1).run_stats.failed =
        initReporter.run_stats.failed + 1 ∧
      ((initReporter.process_test_result failedR1M1).groupStat failedR1M1.runner_name
          failedR1M1.group_name).failed =
        (initReporter.groupStat failedR1M1.runner_name failedR1M1.group_name).failed + 1 ∧
      (initReporter.process_test_result failedR1M1).failed_tests =
        initReporter.failed_tests ++ [failedR1M1.test_name]) :=
  (failed_outcome_effects initReporter failedR1M1).1 rfl

/-- C4: an ERROR outcome with neither test_name nor group_name sets the
global and targeted group run_errors flags to true while leaving every
counter (group-level and global) and the failed_tests list at their prior
values. -/
theorem invocation_error_frame (r : ResultReporter) (t : TestResult)
    (hst : t.status = Status.error) (_htn : t.test_name = none)
    (hgn : t.group_name = none) :
    (r.process_test_result t).run_stats.run_errors = true ∧
    ((r.process_test_result t).groupStat t.runner_name none).run_errors = true ∧
    (r.process_test_result t).run_stats.passed = r.run_stats.passed ∧
    (r.process_test_result t).run_stats.failed = r.run_stats.failed ∧
    (r.process_test_result t).run_stats.ignored = r.run_stats.ignored ∧
    (r.process_test_result t).run_stats.assumption_failed =
      r.run_stats.assumption_failed ∧
    (r.process_test_result t).failed_tests = r.failed_tests ∧
    ∀ rn gn,
      ((r.process_test_result t).groupStat rn gn).passed = (r.groupStat rn gn).passed ∧
      ((r.process_test_result t).groupStat rn gn).failed = (r.groupStat rn gn).failed ∧
      ((r.process_test_result t).groupStat rn gn).ignored = (r.groupStat rn gn).ignored ∧
      ((r.process_test_result t).groupStat rn gn).assumption_failed =
        (r.groupStat rn gn).assumption_failed := by
  have hglob : (r.process_test_result t).run_stats = r.run_stats.applyStatus Status.error := by
    rw [run_stats_process, hst]
  have hgrp : ((r.process_test_result t).groupStat t.runner_name t.group_name).run_errors
      = true := by
    rw [groupStat_process_self, hst]
    rfl
  refine ⟨?_, ?_, ?_, ?_, ?_, ?_, ?_, ?_⟩
  · rw [hglob]
    rfl
  · rw [hgn] at hgrp
    exact hgrp
  · rw [hglob]
    rfl
  · rw [hglob]
    rfl
  · rw [hglob]
    rfl
  · rw [hglob]
    rfl
  · rw [failed_tests_process, hst]
    simp
  · intro rn gn
    by_cases hc : rn = t.runner_name ∧ gn = t.group_name
    · rcases hc with ⟨h1, h2⟩
      subst h1
      subst h2
      rw [groupStat_process_self, hst]
      exact ⟨rfl, rfl, rfl, rfl⟩
    · rw [groupStat_process_other r t rn gn hc]
      exact ⟨rfl, rfl, rfl, rfl⟩

/-- Witness for C4 at a concrete invocation-level ERROR outcome. -/
theorem invocation_error_frame_witness :
    (initReporter.process_test_result errorR1).run_stats.run_errors = true ∧
      ((initReporter.process_test_result errorR1).groupStat errorR1.runner_name
        none).run_errors = true :=
  ⟨(invocation_error_frame initReporter errorR1 rfl rfl rfl).1,
    (invocation_error_frame initReporter errorR1 rfl rfl rfl).2.1⟩

/-- C5: once a group's or the global run_errors flag is true, no sequence of
subsequently processed outcomes of any status can reset it to false. -/
theorem run_errors_monotone (r : ResultReporter) (ts : List TestResult) :
    (r.run_stats.run_errors = true → (r.processAll ts).run_stats.run_errors = true)
    ∧ ∀ rn gn, (r.groupStat rn gn).run_errors = true →
        ((r.processAll ts).groupStat rn gn).run_errors = true := by
  induction ts generalizing r with
  | nil => exact ⟨fun h => h, fun rn gn h => h⟩
  | cons t rest ih =>
    constructor
    · intro h
      have hstep : (r.process_test_result t).run_stats.run_errors = true := by
        rw [run_stats_process, applyStatus_run_errors, h]
        simp
      exact (ih (r.process_test_result t)).1 hstep
    · intro rn gn h
      have hstep : ((r.process_test_result t).groupStat rn gn).run_errors = true := by
        by_cases hc : rn = t.runner_name ∧ gn = t.group_name
        · rcases hc with ⟨h1, h2⟩
          subst h1
          subst h2
          rw [groupStat_process_self, applyStatus_run_errors, h]
          simp
        · rw [groupStat_process_other r t rn gn hc]
          exact h
      exact (ih (r.process_test_result t)).2 rn gn hstep

/-- Witness for C5: an error flag set by an invocation failure survives a
subsequent PASSED outcome. -/
theorem run_errors_monotone_witness :
    ((initReporter.process_test_result errorR1).processAll
      [passedR1M1]).run_stats.run_errors = true :=
  (run_errors_monotone (initReporter.process_test_result errorR1) [passedR1M1]).1 rfl

/-- C6: after register_unsupported_runner stores the sentinel, a later
process_test_result for the same runner replaces the sentinel by a group
mapping and counts the outcome as for a fresh group; a PASSED outcome yields
GroupStat.passed = 1. -/
theorem unsupported_runner_still_counts (r : ResultReporter) (t : TestResult) :
    (alookup t.runner_name (r.register_unsupported_runner t.runner_name).runners =
      some RunnerEntry.unsupported)
    ∧ ((r.register_unsupported_runner t.runner_name).process_test_result t).groupStat
        t.runner_name t.group_name = RunStat.applyStatus {} t.status
    ∧ (∃ m, alookup t.runner_name
          (((r.register_unsupported_runner t.runner_name).process_test_result t).runners) =
        some (RunnerEntry.groups m))
    ∧ (t.status = Status.passed →
        (((r.register_unsupported_runner t.runner_name).process_test_result t).groupStat
            t.runner_name t.group_name).passed = 1) := by
  have hreg : alookup t.runner_name (r.register_unsupported_runner t.runner_name).runners
      = some RunnerEntry.unsupported := by
    simp [ResultReporter.register_unsupported_runner, alookup_aupdate_self]
  have hrg : (r.register_unsupported_runner t.runner_name).runnerGroups
      t.runner_name = [] := by
    simp [ResultReporter.runnerGroups, hreg]
  have hgs : (r.register_unsupported_runner t.runner_name).groupStat
      t.runner_name t.group_name = {} := by
    simp [ResultReporter.groupStat, hrg, alookup]
  refine ⟨hreg, ?_, ?_, ?_⟩
  · rw [groupStat_process_self, hgs]
  · have hruns : ((r.register_unsupported_runner t.runner_name).process_test_result t).runners
        = aupdate t.runner_name
            (RunnerEntry.groups (aupdate t.group_name (RunStat.applyStatus {} t.status) []))
            (r.register_unsupported_runner t.runner_name).runners := by
      simp [ResultReporter.process_test_result, ResultReporter.updateStats, hrg, alookup]
    exact ⟨aupdate t.group_name (RunStat.applyStatus {} t.status) [],
      by rw [hruns, alookup_aupdate_self]⟩
  · intro h
    rw [groupStat_process_self, hgs, h]
    rfl

/-- Witness for C6: spec Scenario E with runner R2 and group M1. -/
theorem unsupported_runner_still_counts_witness :
    (((initReporter.register_unsupported_runner passedR2M1.runner_name).process_test_result
        passedR2M1).groupStat passedR2M1.runner_name passedR2M1.group_name).passed = 1 :=
  (unsupported_runner_still_counts initReporter passedR2M1).2.2.2 rfl

/-! ### Banner lemmas for C7 -/

theorem banners_process (r : ResultReporter) (t : TestResult) :
    (r.process_test_result t).banners =
      if ((alookup t.group_name (r.runnerGroups t.runner_name)).isNone
            && t.group_name.isSome) = true then
        r.banners ++ [(t.runner_name, t.group_name)]
      else r.banners := rfl

theorem seen_process (r : ResultReporter) (t : TestResult) (rn : String)
    (gn : Option String) :
    (alookup gn ((r.process_test_result t).runnerGroups rn)).isSome = true ↔
      (alookup gn (r.runnerGroups rn)).isSome = true ∨
        (rn = t.runner_name ∧ gn = t.group_name) := by
  by_cases hr : rn = t.runner_name
  · subst hr
    rw [runnerGroups_process_self, alookup_aupdate_isSome]
    constructor
    · rintro (h | h)
      · exact Or.inr ⟨rfl, h⟩
      · exact Or.inl h
    · rintro (h | ⟨-, h⟩)
      · exact Or.inr h
      · exact Or.inl h
  · rw [runnerGroups_process_other r t rn hr]
    constructor
    · exact fun h => Or.inl h
    · rintro (h | ⟨h1, -⟩)
      · exact h
      · exact absurd h1 hr

theorem seen_processAll (r : ResultReporter) (ts : List TestResult) (rn : String)
    (gn : Option String) :
    (alookup gn ((r.processAll ts).runnerGroups rn)).isSome = true ↔
      (alookup gn (r.runnerGroups rn)).isSome = true ∨
        ∃ t ∈ ts, t.runner_name = rn ∧ t.group_name = gn := by
  induction ts generalizing r with
  | nil => simp [ResultReporter.processAll]
  | cons t rest ih =>
    show (alookup gn (((r.process_test_result t).processAll rest).runnerGroups rn)).isSome
        = true ↔ _
    rw [ih, seen_process]
    constructor
    · rintro ((h | ⟨h1, h2⟩) | ⟨t', ht', h1, h2⟩)
      · exact Or.inl h
      · exact Or.inr ⟨t, List.mem_cons_self t rest, h1.symm, h2.symm⟩
      · exact Or.inr ⟨t', List.mem_cons_of_mem _ ht', h1, h2⟩
    · rintro (h | ⟨t', ht', h1, h2⟩)
      · exact Or.inl (Or.inl h)
      · rcases List.mem_cons.mp ht' with rfl | hmem
        · exact Or.inl (Or.inr ⟨h1.symm, h2.symm⟩)
        · exact Or.inr ⟨t', hmem, h1, h2⟩

theorem banners_entries (r : ResultReporter) (ts : List TestResult)
    (h : ∀ b ∈ r.banners, b.2.isSome = true) :
    ∀ b ∈ (r.processAll ts).banners, b.2.isSome = true := by
  induction ts generalizing r with
  | nil => exact h
  | cons t rest ih =>
    show ∀ b ∈ ((r.process_test_result t).processAll rest).banners, b.2.isSome = true
    apply ih
    intro b hb
    rw [banners_process] at hb
    by_cases hcond : ((alookup t.group_name (r.runnerGroups t.runner_name)).isNone
        && t.group_name.isSome) = true
    · rw [if_pos hcond] at hb
      rcases List.mem_append.mp hb with h1 | h2
      · exact h b h1
      · have hb2 : b = (t.runner_name, t.group_name) := by simpa using h2
        rw [hb2]
        simp only [Bool.and_eq_true] at hcond
        exact hcond.2
    · rw [if_neg hcond] at hb
      exact h b hb

/-- C7: a group-title banner is emitted exactly once per distinct
(runner_name, group_name) pair, at the step where the pair is first seen;
repeated outcomes for a seen pair emit no banner, and the banner is
suppressed for the runner-scoped synthetic group when group_name is absent. -/
theorem group_title_banner_once (ts : List TestResult) (t : TestResult) :
    ((initReporter.processAll (ts ++ [t])).banners =
      (initReporter.processAll ts).banners ++
        (if t.group_name.isSome = true ∧
            (∀ t' ∈ ts, ¬(t'.runner_name = t.runner_name ∧ t'.group_name = t.group_name))
         then [(t.runner_name, t.group_name)] else []))
    ∧ ∀ b ∈ (initReporter.processAll (ts ++ [t])).banners, b.2.isSome = true := by
  constructor
  · have happ : initReporter.processAll (ts ++ [t]) =
        (initReporter.processAll ts).process_test_result t := by
      simp [ResultReporter.processAll, List.foldl_append]
    rw [happ, banners_process]
    have hchar := seen_processAll initReporter ts t.runner_name t.group_name
    have hinit : (alookup t.group_name (initReporter.runnerGroups t.runner_name)).isSome
        = false := rfl
    rw [hinit] at hchar
    simp only [Bool.false_eq_true, false_or] at hchar
    by_cases hseen : ∃ t' ∈ ts, t'.runner_name = t.runner_name ∧ t'.group_name = t.group_name
    · have hsome : (alookup t.group_name
          ((initReporter.processAll ts).runnerGroups t.runner_name)).isSome = true := by
        rw [hchar]
        obtain ⟨t', ht', h1, h2⟩ := hseen
        exact ⟨t', ht', h1, h2⟩
      have hnone : (alookup t.group_name
          ((initReporter.processAll ts).runnerGroups t.runner_name)).isNone = false := by
        rcases halt : alookup t.group_name
            ((initReporter.processAll ts).runnerGroups t.runner_name) with - | v
        · rw [halt] at hsome
          exact absurd hsome (by simp)
        · simp
      rw [hnone]
      have hcond : ¬(t.group_name.isSome = true ∧
          (∀ t' ∈ ts, ¬(t'.runner_name = t.runner_name ∧ t'.group_name = t.group_name))) := by
        rintro ⟨-, hall⟩
        obtain ⟨t', ht', h1, h2⟩ := hseen
        exact hall t' ht' ⟨h1, h2⟩
      rw [if_neg hcond]
      simp
    · have hnotsome : (alookup t.group_name
          ((initReporter.processAll ts).runnerGroups t.runner_name)).isSome = false := by
        rcases halt : alookup t.group_name
            ((initReporter.processAll ts).runnerGroups t.runner_name) with - | v
        · simp
        · exfalso
          apply hseen
          rw [← hchar, halt]
          rfl
      have hnone : (alookup t.group_name
          ((initReporter.processAll ts).runnerGroups t.runner_name)).isNone = true := by
        rcases halt : alookup t.group_name
            ((initReporter.processAll ts).runnerGroups t.runner_name) with - | v
        · rfl
        · rw [halt] at hnotsome
          exact absurd hnotsome (by simp)
      rw [hnone]
      by_cases hs : t.group_name.isSome = true
      · have hall : ∀ t' ∈ ts, ¬(t'.runner_name = t.runner_name ∧
            t'.group_name = t.group_name) := by
          intro t' ht' hpair
          exact hseen ⟨t', ht', hpair.1, hpair.2⟩
        have hP : t.group_name.isSome = true ∧ ∀ t' ∈ ts,
            ¬(t'.runner_name = t.runner_name ∧ t'.group_name = t.group_name) := ⟨hs, hall⟩
        rw [if_pos hP, hs]
        simp
      · have hs' : t.group_name.isSome = false := by
          rcases hgo : t.group_name with - | v
          · rfl
          · rw [hgo] at hs
            exact absurd rfl hs
        rw [hs']
        simp
  · have happ : initReporter.processAll (ts ++ [t]) =
        initReporter.processAll (ts ++ [t]) := rfl
    exact banners_entries initReporter (ts ++ [t]) (by intro b hb; cases hb)

/-! ### XML lemmas for C8 and C9 -/

theorem setTail_tag (e : Element) (t : Option String) : (e.setTail t).tag = e.tag := by
  cases e
  rfl

theorem jdkEntryMatch_setTail (e : Element) (t : Option String) :
    jdkEntryMatch (e.setTail t) = jdkEntryMatch e := by
  cases e
  rfl

theorem children_setChildren (e : Element) (cs : List Element) :
    (e.setChildren cs).children = cs := by
  cases e
  rfl

theorem mem_iterList_self (tag : String) (es : List Element) (e : Element)
    (he : e ∈ es) (ht : e.tag = tag) : e ∈ iterList tag es := by
  induction es with
  | nil => cases he
  | cons c rest ih =>
    rcases c with ⟨t, a, tx, tl, cs⟩
    rcases List.mem_cons.mp he with rfl | hmem
    · have htt : t = tag := ht
      simp [iterList, htt]
    · simp only [iterList]
      exact List.mem_append_right _ (ih hmem)

theorem mem_iterList_child (tag : String) (es : List Element) (c : Element)
    (hc : c ∈ es) (x : Element) (hx : x ∈ iterList tag c.children) :
    x ∈ iterList tag es := by
  induction es with
  | nil => cases hc
  | cons c0 rest ih =>
    rcases c0 with ⟨t, a, tx, tl, cs⟩
    rcases List.mem_cons.mp hc with rfl | hmem
    · simp only [iterList]
      exact List.mem_append_left _ (List.mem_append_right _ hx)
    · simp only [iterList]
      exact List.mem_append_right _ (ih hmem)

theorem updateFirst_mem (p : Element → Bool) (f : Element → Element)
    (l : List Element) (c : Element) (h : l.find? p = some c) :
    f c ∈ updateFirst p f l := by
  induction l with
  | nil => cases h
  | cons c0 rest ih =>
    by_cases hp : p c0 = true
    · rw [List.find?_cons_of_pos _ hp] at h
      have hcc : c = c0 := by
        injection h with h'
        exact h'.symm
      subst hcc
      simp [updateFirst, hp]
    · rw [List.find?_cons_of_neg _ hp] at h
      simp only [updateFirst, hp]
      rw [if_neg]
      · exact List.mem_cons_of_mem _ (ih h)
      · simp [hp]

theorem mem_appendToComponent (nodeWithTail comp : Element) :
    nodeWithTail ∈ (appendToComponent nodeWithTail comp).children := by
  unfold appendToComponent
  by_cases h : comp.children.length > 0
  · rw [if_pos h, children_setChildren]
    exact List.mem_append_right _ (List.mem_singleton.mpr rfl)
  · rw [if_neg h, children_setChildren]
    exact List.mem_append_right _ (List.mem_singleton.mpr rfl)

theorem check_structure_some (root : Element) :
    check_structure (some root) =
      (if (root.tag != "application") = true then false
       else
         match root.find "component" with
         | none => false
         | some comp =>
           if (comp.tag != "component") = true then false
           else comp.get "name" == some "ProjectJdkTable") := rfl

theorem find_component_of_structure (root : Element)
    (hstruct : check_structure (some root) = true) :
    ∃ comp, root.children.find? (fun c => c.tag == "component") = some comp := by
  rcases hfind : root.find "component" with - | comp
  · exfalso
    rw [check_structure_some, hfind] at hstruct
    by_cases htag : (root.tag != "application") = true
    · rw [if_pos htag] at hstruct
      exact Bool.false_ne_true hstruct
    · rw [if_neg htag] at hstruct
      exact Bool.false_ne_true hstruct
  · exact ⟨comp, hfind⟩

theorem check_jdk18_append (root node : Element)
    (hstruct : check_structure (some root) = true)
    (hnode : isJdk18Entry node = true) :
    check_jdk18_in_xml (append_config root node) = true := by
  obtain ⟨comp, hcomp⟩ := find_component_of_structure root hstruct
  have hsplit := Bool.and_eq_true_iff.mp hnode
  have htag : node.tag = "jdk" := by
    have := hsplit.1
    simpa using this
  have hmatch : jdkEntryMatch node = true := hsplit.2
  have hFmem : appendToComponent (node.setTail (some NEW_TAG_TAIL)) comp ∈
      updateFirst (fun c => c.tag == "component")
        (appendToComponent (node.setTail (some NEW_TAG_TAIL))) root.children :=
    updateFirst_mem _ _ _ _ hcomp
  have hnodemem := mem_appendToComponent (node.setTail (some NEW_TAG_TAIL)) comp
  have htag' : (node.setTail (some NEW_TAG_TAIL)).tag = "jdk" := by
    rw [setTail_tag]
    exact htag
  have hx1 : node.setTail (some NEW_TAG_TAIL) ∈
      iterList "jdk" (appendToComponent (node.setTail (some NEW_TAG_TAIL)) comp).children :=
    mem_iterList_self "jdk" _ _ hnodemem htag'
  have hx2 : node.setTail (some NEW_TAG_TAIL) ∈
      iterList "jdk" (append_config root node).children := by
    unfold append_config
    rw [children_setChildren]
    exact mem_iterList_child "jdk" _ _ hFmem _ hx1
  have hx3 : node.setTail (some NEW_TAG_TAIL) ∈ (append_config root node).iter "jdk" := by
    unfold Element.iter
    exact mem_iterList_child "jdk" _ _ (List.mem_singleton.mpr rfl) _ hx2
  unfold check_jdk18_in_xml
  exact List.any_eq_true.mpr ⟨node.setTail (some NEW_TAG_TAIL), hx3,
    by rw [jdkEntryMatch_setTail]; exact hmatch⟩

/-- C8: config_jdk_table_xml is an idempotent ensure-entry-exists patch:
with a JDK18/JavaSDK entry already present nothing is appended and nothing
written, and a second run on the document produced by a first run leaves the
document unchanged and writes nothing. -/
theorem config_jdk_table_idempotent (doc node : Element)
    (hnode : isJdk18Entry node = true) :
    (check_jdk18_in_xml doc = true →
      ((config_jdk_table_xml { xml := some doc, jdk_node := node }).state.xml = some doc ∧
        (config_jdk_table_xml { xml := some doc, jdk_node := node }).wrote = false))
    ∧ ∀ doc1,
        (config_jdk_table_xml { xml := some doc, jdk_node := node }).state.xml = some doc1 →
        ((config_jdk_table_xml { xml := some doc1, jdk_node := node }).state.xml = some doc1 ∧
          (config_jdk_table_xml { xml := some doc1, jdk_node := node }).wrote = false) := by
  have hok : ∀ d : Element, check_jdk18_in_xml d = true →
      ((config_jdk_table_xml { xml := some d, jdk_node := node }).state.xml = some d ∧
        (config_jdk_table_xml { xml := some d, jdk_node := node }).wrote = false) := by
    intro d hj
    cases hcs : check_structure (some d) with
    | false => simp [config_jdk_table_xml, hcs]
    | true => simp [config_jdk_table_xml, hcs, generate_jdk_config_string, hj]
  refine ⟨hok doc, ?_⟩
  intro doc1 h1
  cases hcs : check_structure (some doc) with
  | false =>
    have hd : doc = doc1 := by
      simpa [config_jdk_table_xml, hcs] using h1
    rw [← hd]
    simp [config_jdk_table_xml, hcs]
  | true =>
    cases hj : check_jdk18_in_xml doc with
    | true =>
      have hd : doc = doc1 := by
        simpa [config_jdk_table_xml, hcs, generate_jdk_config_string, hj] using h1
      rw [← hd]
      exact hok doc hj
    | false =>
      have hd : append_config doc node = doc1 := by
        simpa [config_jdk_table_xml, hcs, generate_jdk_config_string, hj] using h1
      rw [← hd]
      exact hok _ (check_jdk18_append doc node hcs hnode)

/-- Witness for C8: a second run on the document produced by patching the
empty table leaves it unchanged and writes nothing. -/
theorem config_jdk_table_idempotent_witness :
    ((config_jdk_table_xml
          { xml := some (append_config emptyTableDoc jdkNode18), jdk_node := jdkNode18 }).state.xml
        = some (append_config emptyTableDoc jdkNode18) ∧
      (config_jdk_table_xml
          { xml := some (append_config emptyTableDoc jdkNode18), jdk_node := jdkNode18 }).wrote
        = false) :=
  (config_jdk_table_idempotent emptyTableDoc jdkNode18 rfl).2
    (append_config emptyTableDoc jdkNode18)
    (by
      have h1 : check_structure (some emptyTableDoc) = true := rfl
      have h2 : check_jdk18_in_xml emptyTableDoc = false := by
        simp [check_jdk18_in_xml, Element.iter, iterList, emptyTableDoc]
      simp [config_jdk_table_xml, generate_jdk_config_string, h1, h2])

/-- C9: when the root tag is not application, or there is no component
child, or its name attribute is not ProjectJdkTable, config_jdk_table_xml
returns False immediately, appends nothing and writes nothing. -/
theorem config_jdk_table_bad_structure (s : JDKTableXML) (root : Element)
    (hx : s.xml = some root)
    (h : root.tag ≠ "application" ∨ root.find "component" = none ∨
      ∀ comp, root.find "component" = some comp →
        comp.get "name" ≠ some "ProjectJdkTable") :
    config_jdk_table_xml s = { ret := false, state := s, wrote := false } := by
  have hcs : check_structure s.xml = false := by
    rw [hx, check_structure_some]
    rcases h with h | h | h
    · have htag : (root.tag != "application") = true := by
        simpa [bne_iff_ne] using h
      rw [if_pos htag]
    · by_cases htag : (root.tag != "application") = true
      · rw [if_pos htag]
      · rw [if_neg htag, h]
    · by_cases htag : (root.tag != "application") = true
      · rw [if_pos htag]
      · rw [if_neg htag]
        rcases hfind : root.find "component" with - | comp
        · rfl
        · have hfind' : root.children.find? (fun c => c.tag == "component") = some comp := hfind
          have hcomptag0 := List.find?_some hfind'
          have hcomptag : (comp.tag == "component") = true := hcomptag0
          have hbne : (comp.tag != "component") = false := by
            simp [bne, hcomptag]
          show (if (comp.tag != "component") = true then false
            else comp.get "name" == some "ProjectJdkTable") = false
          rw [hbne]
          simp only [Bool.false_eq_true, if_false]
          exact beq_eq_false_iff_ne.mpr (h comp hfind)
  have hcs' : (!check_structure s.xml) = true := by
    rw [hcs]
    rfl
  unfold config_jdk_table_xml
  rw [if_pos hcs']

/-- Witness for C9 at a document whose root tag is `project`. -/
theorem config_jdk_table_bad_structure_witness :
    config_jdk_table_xml { xml := some badRootDoc, jdk_node := jdkNode18 } =
      { ret := false, state := { xml := some badRootDoc, jdk_node := jdkNode18 },
        wrote := false } :=
  config_jdk_table_bad_structure { xml := some badRootDoc, jdk_node := jdkNode18 }
    badRootDoc rfl (Or.inl (by decide))

/-- C10: main re-raises exactly when the exit code is non-normal; a
SystemExit with code 0 keeps EXIT_CODE_NORMAL, is not re-raised, and the
normal-path metrics run; every other exception sets
EXIT_CODE_AIDEGEN_EXCEPTION for AIDEgenError and EXIT_CODE_EXCEPTION
otherwise, sends the error metrics, prints the traceback and re-raises. -/
theorem main_exit_code_reraise :
    (∀ body : Option MainException,
      (main_run body).reraised = true ↔ (main_run body).exit_code ≠ EXIT_CODE_NORMAL)
    ∧ ((main_run (some (MainException.systemExit (some 0)))).exit_code = EXIT_CODE_NORMAL ∧
        (main_run (some (MainException.systemExit (some 0)))).reraised = false ∧
        (main_run (some (MainException.systemExit (some 0)))).normal_metrics_sent = true)
    ∧ ∀ e : MainException, e ≠ MainException.systemExit (some 0) →
        ((main_run (some e)).exit_code =
            (if e = MainException.aidegenError then EXIT_CODE_AIDEGEN_EXCEPTION
             else EXIT_CODE_EXCEPTION) ∧
          (main_run (some e)).reraised = true ∧
          (main_run (some e)).error_metrics_sent = true ∧
          (main_run (some e)).traceback_printed = true) := by
  refine ⟨?_, ?_, ?_⟩
  · intro body
    rcases body with - | e
    · simp [main_run, EXIT_CODE_NORMAL]
    · rcases e with c | - | -
      · rcases c with - | v
        · simp [main_run, EXIT_CODE_NORMAL, EXIT_CODE_EXCEPTION,
            EXIT_CODE_AIDEGEN_EXCEPTION]
        · by_cases hv : v = 0
          · subst hv
            simp [main_run, EXIT_CODE_NORMAL]
          · simp [main_run, hv, EXIT_CODE_NORMAL, EXIT_CODE_EXCEPTION,
              EXIT_CODE_AIDEGEN_EXCEPTION]
      · simp [main_run, EXIT_CODE_NORMAL, EXIT_CODE_AIDEGEN_EXCEPTION]
      · simp [main_run, EXIT_CODE_NORMAL, EXIT_CODE_EXCEPTION]
  · refine ⟨?_, ?_, ?_⟩ <;> simp [main_run, EXIT_CODE_NORMAL]
  · intro e he
    rcases e with c | - | -
    · rcases c with - | v
      · simp [main_run, EXIT_CODE_NORMAL, EXIT_CODE_EXCEPTION,
          EXIT_CODE_AIDEGEN_EXCEPTION]
      · have hv : v ≠ 0 := by
          intro hv0
          subst hv0
          exact he rfl
        simp [main_run, hv, EXIT_CODE_NORMAL, EXIT_CODE_EXCEPTION,
          EXIT_CODE_AIDEGEN_EXCEPTION]
    · simp [main_run, EXIT_CODE_NORMAL, EXIT_CODE_AIDEGEN_EXCEPTION,
        EXIT_CODE_EXCEPTION]
    · simp [main_run, EXIT_CODE_NORMAL, EXIT_CODE_EXCEPTION,
        EXIT_CODE_AIDEGEN_EXCEPTION]

/-- Witness for C10 at a concrete non-AIDEgen, non-SystemExit exception. -/
theorem main_exit_code_reraise_witness :
    ((main_run (some MainException.otherError)).exit_code =
        (if MainException.otherError = MainException.aidegenError
         then EXIT_CODE_AIDEGEN_EXCEPTION else EXIT_CODE_EXCEPTION) ∧
      (main_run (some MainException.otherError)).reraised = true ∧
      (main_run (some MainException.otherError)).error_metrics_sent = true ∧
      (main_run (some MainException.otherError)).traceback_printed = true) :=
  main_exit_code_reraise.2.2 MainException.otherError (by decide)
